import Mathlib

set_option maxRecDepth 8000

/- Shallow embedding of src/main.py (Longevity Evidence Scout v1.2).

   Modeling conventions:
   * Python strings are Lean `String` (a packed `List Char`).
   * `str.lower()` is modeled on ASCII letters (`lcChar`); every text the
     program compares is ASCII.
   * Python's substring test `pat in hay` is contiguous-sublist containment.
   * `str.strip(chars)` trims matching characters from both ends.
   * Python floats in `calculate_stars` are all multiples of 0.25 (exactly
     representable), so scores are carried as `Nat` quarter points.          -/

-- ===========================================================================
-- Python string primitives
-- ===========================================================================

def pyIsSpace (c : Char) : Bool :=
  c = ' ' || c = '\t' || c = '\n' || c = '\r' || c = '\x0b' || c = '\x0c'

def lcChar (c : Char) : Char :=
  if 'A' ≤ c ∧ c ≤ 'Z' then Char.ofNat (c.toNat + 32) else c

def lowerStr (s : String) : String := ⟨s.data.map lcChar⟩

/-- `matchesAt pat hay`: `pat` is an initial segment of `hay`. -/
def matchesAt : List Char → List Char → Bool
  | [], _ => true
  | _ :: _, [] => false
  | p :: ps, h :: hs => p == h && matchesAt ps hs

/-- `hasRun pat hay`: `pat` occurs as a contiguous run inside `hay`. -/
def hasRun (pat : List Char) : List Char → Bool
  | [] => pat.isEmpty
  | h :: hs => matchesAt pat (h :: hs) || hasRun pat hs

/-- Python `pat in hay` for strings: contiguous substring containment. -/
def strContains (hay pat : String) : Bool := hasRun pat.data hay.data

def stripWith (p : Char → Bool) (l : List Char) : List Char :=
  ((l.dropWhile p).reverse.dropWhile p).reverse

/-- Python `s.strip()` (whitespace at both ends). -/
def pyStrip (s : String) : String := ⟨stripWith pyIsSpace s.data⟩

/-- Python `s[:n]` for `n ≥ 0`: truncation to the first `n` characters. -/
def pyTake (n : Nat) (s : String) : String := ⟨s.data.take n⟩

-- ===========================================================================
-- src/main.py lines 78-124: DOMAIN_KEYWORDS (dict literal, insertion order)
-- ===========================================================================

def DOMAIN_KEYWORDS : List (String × List String) := [
  ("Aging_Metabolism", [
      "glucose", "insulin", "hba1c", "fasting glucose", "ogtt",
      "metabolic", "diabetes", "prediabetes", "insulin resistance",
      "triglycerides", "cholesterol", "ldl", "hdl", "apob"]),
  ("Inflammation", [
      "crp", "c-reactive protein", "hscrp", "interleukin", "il-6",
      "tnf-alpha", "inflammation", "inflammatory", "cytokine",
      "inflammaging", "chronic inflammation", "nf-kb"]),
  ("Oxidative_Stress", [
      "oxidative stress", "reactive oxygen", "ros", "antioxidant",
      "glutathione", "malondialdehyde", "8-ohdg", "isoprostanes",
      "lipid peroxidation", "superoxide dismutase", "catalase"]),
  ("Cardiovascular", [
      "homocysteine", "lp(a)", "lipoprotein", "apolipoprotein",
      "arterial stiffness", "pulse wave", "carotid", "atherosclerosis",
      "endothelial", "blood pressure", "hypertension", "cardiovascular"]),
  ("Kidney_Liver", [
      "creatinine", "egfr", "bun", "cystatin c", "uric acid",
      "alt", "ast", "ggt", "albumin", "bilirubin", "liver function",
      "kidney function", "renal", "hepatic"]),
  ("Thyroid_Hormones", [
      "tsh", "t3", "t4", "thyroid", "free t3", "free t4",
      "testosterone", "estrogen", "dhea", "cortisol", "hormone",
      "endocrine", "igf-1", "growth hormone"]),
  ("Blood_Counts", [
      "hemoglobin", "hematocrit", "rbc", "wbc", "platelet",
      "neutrophil", "lymphocyte", "monocyte", "complete blood count",
      "anemia", "red blood cell", "white blood cell", "rdw"]),
  ("Longevity_Biomarkers", [
      "telomere", "telomerase", "epigenetic clock", "dna methylation",
      "biological age", "senescence", "senolytics", "nad+", "sirtuin",
      "ampk", "mtor", "autophagy", "mitochondrial function"]),
  ("Vitamins_Minerals", [
      "vitamin d", "25-hydroxyvitamin", "vitamin b12", "folate",
      "ferritin", "iron", "zinc", "magnesium", "selenium",
      "omega-3", "vitamin k", "deficiency"])]

-- ===========================================================================
-- src/main.py lines 543-555: detect_domain
-- ===========================================================================

/-- `sum(1 for kw in keywords if kw.lower() in text)` (line 549). -/
def domainScore (text : String) (keywords : List String) : Nat :=
  (keywords.map (fun kw => if strContains text (lowerStr kw) then 1 else 0)).sum

/-- Python `max(iterable, key=value)` over an association list: keeps the
    current maximum and replaces it only on a strictly greater value, so the
    first maximal element encountered wins (CPython `max` semantics). -/
def argmaxFirst (l : List (String × Nat)) (d : String × Nat) : String × Nat :=
  l.foldl (fun best p => if p.2 > best.2 then p else best) d

/-- The `domain_scores` dict of `detect_domain` (lines 547-551), generalized
    over the taxonomy the way the source reads the module constant
    `DOMAIN_KEYWORDS`; entries appear in taxonomy iteration order. -/
def domainScoresWith (taxonomy : List (String × List String))
    (query abstract : String) : List (String × Nat) :=
  let text := lowerStr (query ++ " " ++ abstract)
  taxonomy.filterMap fun dk =>
    let score := domainScore text dk.2
    if score > 0 then some (dk.1, score) else none

/-- `detect_domain` (lines 543-555) generalized over the taxonomy:
    `max(domain_scores, key=domain_scores.get)` when any score is positive,
    else the fallback label. -/
def detectDomainWith (taxonomy : List (String × List String))
    (query abstract : String) : String :=
  match domainScoresWith taxonomy query abstract with
  | [] => "General_Longevity"
  | d :: rest => (argmaxFirst rest d).1

/-- `detect_domain(query, abstract)` as the program runs it, over the
    module-level `DOMAIN_KEYWORDS`. -/
def detect_domain (query abstract : String) : String :=
  detectDomainWith DOMAIN_KEYWORDS query abstract

-- ===========================================================================
-- src/main.py lines 127-135: TOP_JOURNALS
-- ===========================================================================

def TOP_JOURNALS : List String := [
  "nature aging", "cell metabolism", "aging cell",
  "nature medicine", "lancet healthy longevity", "jama",
  "nejm", "lancet", "bmj", "journals of gerontology",
  "geroscience", "aging", "nature", "science", "cell",
  "annals of internal medicine", "circulation", "diabetes care",
  "plos one", "plos medicine", "scientific reports",
  "frontiers in aging", "experimental gerontology"]

-- ===========================================================================
-- src/main.py lines 562-624: calculate_stars
-- All point values are in quarter points (0.25 = 1), so 2.5 = 10, 1.5 = 6, …
-- ===========================================================================

/-- Evidence-type component (lines 575-589); input `""` models a falsy
    `evidence_type` (`evidence_type.lower() if evidence_type else ""`). -/
def evidenceComponent (evidence_type : String) : Nat :=
  let l := lowerStr evidence_type
  if strContains l "meta-analysis" || strContains l "systematic review" then 10
  else if strContains l "randomized" || strContains l "rct" then 10
  else if strContains l "prospective cohort" || strContains l "longitudinal" then 8
  else if strContains l "cohort" || strContains l "case-control" then 6
  else if strContains l "cross-sectional" || strContains l "nhanes" ||
          strContains l "population" then 4
  else if strContains l "case series" || strContains l "case report" then 2
  else 2

/-- First maximal run of non-whitespace characters: `size_str.split()[0]`
    when `size_str.split()` is nonempty, else `[]`. -/
def firstToken (l : List Char) : List Char :=
  (l.dropWhile pyIsSpace).takeWhile (fun c => !pyIsSpace c)

/-- The digit string Python's `int` receives:
    `''.join(filter(str.isdigit, size_str.split()[0] if size_str.split() else size_str))`. -/
def sampleDigits (size_str : List Char) : List Char :=
  let tok := firstToken size_str
  (if tok = [] then size_str else tok).filter Char.isDigit

def natOfDigits (l : List Char) : Nat :=
  l.foldl (fun n c => n * 10 + (c.toNat - 48)) 0

/-- Sample-size component (lines 592-607).  The `try` body succeeds exactly
    when at least one digit survives the filter; `ValueError` on the empty
    digit string is the `except … pass` path contributing zero. -/
def sampleComponent (sample_size : String) : Nat :=
  if sample_size = "" then 0
  else
    let size_str := (sample_size.data.filter (fun c => c ≠ ',')).filter (fun c => c ≠ ' ')
    let ds := sampleDigits size_str
    if ds = [] then 0
    else
      let n := natOfDigits ds
      if n ≥ 10000 then 6
      else if n ≥ 1000 then 4
      else if n ≥ 500 then 3
      else if n ≥ 100 then 2
      else if n ≥ 50 then 1
      else 0

/-- Journal-quality component (lines 610-615). -/
def journalComponent (journal : String) : Nat :=
  let l := lowerStr journal
  if TOP_JOURNALS.any (fun top => strContains l top) then 4 else 2

/-- Effect-size component (lines 617-622). -/
def effectComponent (effect_size_reported : String) : Nat :=
  if effect_size_reported ≠ "" &&
     !(["not reported", "n/a", "none", ""].contains (lowerStr effect_size_reported)) then
    2 + (if ["per", "dose", "quartile", "tertile", "trend"].any
            (fun x => strContains (lowerStr effect_size_reported) x) then 1 else 0)
  else 0

/-- Python 3 `round` (round half to even) applied to a quarter-point total:
    `pyRound q` is `round(q / 4)`.  All intermediate floats in the source are
    multiples of 0.25, hence exact, so this is the source's rounding. -/
def pyRound (q : Nat) : Nat :=
  if q % 4 = 2 then (if (q / 4) % 2 = 0 then q / 4 else q / 4 + 1)
  else if q % 4 = 3 then q / 4 + 1
  else q / 4

/-- Final clamp `min(max(round(score), 1), 5)` on a quarter-point total. -/
def starsOfTotal (q : Nat) : Nat := min (max (pyRound q) 1) 5

/-- `calculate_stars(evidence_type, sample_size, journal, effect_size_reported)`
    (lines 562-624): sequential `score += …` accumulation then
    `min(max(round(score), 1), 5)`. -/
def calculate_stars (evidence_type sample_size journal effect_size_reported : String) : Nat :=
  let score := evidenceComponent evidence_type
  let score := score + sampleComponent sample_size
  let score := score + journalComponent journal
  let score := score + effectComponent effect_size_reported
  min (max (pyRound score) 1) 5

-- ===========================================================================
-- src/main.py lines 141-145: VALID_EVIDENCE_TYPES
-- ===========================================================================

def VALID_EVIDENCE_TYPES : List String := [
  "Meta-analysis", "Systematic Review", "RCT", "Prospective Cohort",
  "Cohort", "Case-control", "Cross-sectional", "NHANES", "Biomonitoring",
  "Case Series", "In Vitro", "Animal", "Mechanistic", "Other"]

-- ===========================================================================
-- src/main.py lines 147-230: sanitize_evidence_type
-- ===========================================================================

/-- The `mapping` dict of `sanitize_evidence_type` (lines 164-201). -/
def EVIDENCE_TYPE_MAPPING : List (String × String) := [
  ("meta analysis", "Meta-analysis"),
  ("systematic review and meta-analysis", "Meta-analysis"),
  ("systematic review", "Systematic Review"),
  ("review", "Systematic Review"),
  ("randomized controlled trial", "RCT"),
  ("randomised controlled trial", "RCT"),
  ("randomized clinical trial", "RCT"),
  ("clinical trial", "RCT"),
  ("prospective cohort", "Prospective Cohort"),
  ("prospective study", "Prospective Cohort"),
  ("prospective", "Prospective Cohort"),
  ("longitudinal", "Prospective Cohort"),
  ("cohort study", "Cohort"),
  ("retrospective cohort", "Cohort"),
  ("retrospective", "Cohort"),
  ("case control", "Case-control"),
  ("case-control study", "Case-control"),
  ("cross sectional", "Cross-sectional"),
  ("cross-sectional study", "Cross-sectional"),
  ("population-based", "Cross-sectional"),
  ("observational", "Cross-sectional"),
  ("nhanes analysis", "NHANES"),
  ("nhanes study", "NHANES"),
  ("biomonitoring study", "Biomonitoring"),
  ("case series", "Case Series"),
  ("case report", "Case Series"),
  ("in vitro", "In Vitro"),
  ("in-vitro", "In Vitro"),
  ("animal study", "Animal"),
  ("animal model", "Animal"),
  ("in vivo", "Animal"),
  ("mechanistic study", "Mechanistic"),
  ("unknown", "Other"),
  ("not reported", "Other"),
  ("n/a", "Other"),
  ("", "Other")]

/-- `str(evidence_type).strip().strip('"').strip("'")` (line 155). -/
def stripQuotes (s : String) : String :=
  ⟨stripWith (fun c => c = '\'') (stripWith (fun c => c = '"') (stripWith pyIsSpace s.data))⟩

/-- The disjunction of every partial-matching test of lines 207-228. -/
def fuzzyTypeMatch (t : String) : Bool :=
  (strContains t "meta" && strContains t "analy") ||
  strContains t "systematic" ||
  strContains t "random" || strContains t "rct" ||
  strContains t "prospective" || strContains t "longitudinal" ||
  strContains t "cohort" ||
  strContains t "case-control" || strContains t "case control" ||
  (strContains t "cross" && strContains t "section") ||
  strContains t "nhanes" ||
  strContains t "biomonitor" ||
  strContains t "vitro" ||
  strContains t "animal" || strContains t "mouse" || strContains t "rat"

/-- `sanitize_evidence_type(evidence_type)` (lines 147-230).  `none` models
    Python `None`; `some ""` (and every other falsy value after `str`) takes
    the `if not evidence_type` early return. -/
def sanitize_evidence_type (evidence_type : Option String) : String :=
  match evidence_type with
  | none => "Other"
  | some s =>
    if s = "" then "Other"
    else
      let et_lower := lowerStr (stripQuotes s)
      match VALID_EVIDENCE_TYPES.find? (fun valid => et_lower = lowerStr valid) with
      | some valid => valid
      | none =>
        match EVIDENCE_TYPE_MAPPING.find? (fun p => p.1 = et_lower) with
        | some p => p.2
        | none =>
          if strContains et_lower "meta" && strContains et_lower "analy" then "Meta-analysis"
          else if strContains et_lower "systematic" then "Systematic Review"
          else if strContains et_lower "random" || strContains et_lower "rct" then "RCT"
          else if strContains et_lower "prospective" ||
                  strContains et_lower "longitudinal" then "Prospective Cohort"
          else if strContains et_lower "cohort" then "Cohort"
          else if strContains et_lower "case-control" ||
                  strContains et_lower "case control" then "Case-control"
          else if strContains et_lower "cross" && strContains et_lower "section" then "Cross-sectional"
          else if strContains et_lower "nhanes" then "NHANES"
          else if strContains et_lower "biomonitor" then "Biomonitoring"
          else if strContains et_lower "vitro" then "In Vitro"
          else if strContains et_lower "animal" || strContains et_lower "mouse" ||
                  strContains et_lower "rat" then "Animal"
          else "Other"

-- ===========================================================================
-- src/main.py lines 30-59: DOMAIN_MAP and DOMAIN_TO_CONDITION
-- ===========================================================================

def DOMAIN_MAP : List (String × String) := [
  ("Inflammation", "DOM_INFLAMMATION"),
  ("Cardiovascular", "DOM_LIPID"),
  ("Kidney_Liver", "DOM_KIDNEY"),
  ("Thyroid_Hormones", "DOM_THYROID"),
  ("Hormones", "DOM_HORMONE"),
  ("Aging_Metabolism", "DOM_METABOLIC"),
  ("Blood_Counts", "DOM_HEMATOLOGY"),
  ("Vitamins_Minerals", "DOM_NUTRIENT"),
  ("Oxidative_Stress", "DOM_INFLAMMATION"),
  ("Longevity_Biomarkers", "DOM_AGING"),
  ("General_Longevity", "DOM_AGING")]

def DOMAIN_TO_CONDITION : List (String × String) := [
  ("DOM_INFLAMMATION", "COND_005"),
  ("DOM_LIPID", "COND_010"),
  ("DOM_HEMATOLOGY", "COND_006"),
  ("DOM_METABOLIC", "COND_003"),
  ("DOM_HORMONE", "COND_002"),
  ("DOM_THYROID", "COND_001"),
  ("DOM_KIDNEY", "COND_020"),
  ("DOM_NUTRIENT", "COND_012"),
  ("DOM_AGING", "COND_017")]

/-- Python `dict.get(key)` over an association list. -/
def dictGet (d : List (String × String)) (key : String) : Option String :=
  (d.find? (fun p => p.1 = key)).map Prod.snd

-- ===========================================================================
-- Run statistics (src/main.py lines 234-241)
-- ===========================================================================

structure Stats where
  total_searched : Nat
  abstracts_fetched : Nat
  duplicates_skipped : Nat
  below_threshold : Nat
  added_to_airtable : Nat
  errors : Nat
deriving DecidableEq

def initStats : Stats := ⟨0, 0, 0, 0, 0, 0⟩

-- ===========================================================================
-- src/main.py lines 258-302: get_existing_titles (dedup-ledger load)
-- ===========================================================================

/-- One answer of the external store to a paginated read during the ledger
    load: HTTP 404, a transport failure (a raised `RequestException`,
    including `raise_for_status` on any other non-2xx code), or a page of
    `study_title` values together with whether an `offset` token follows. -/
inductive StoreResp
  | notFound
  | transportError
  | page (titles : List String) (more : Bool)
deriving DecidableEq

/-- The `while True` pagination loop of `get_existing_titles`.  A 404 answer
    returns the empty set at once; a transport error propagates to the
    `except` handler which returns the empty set, discarding every title
    accumulated so far; otherwise each nonempty title is added normalized
    (`title.lower().strip()`) and the loop continues while an offset is
    present. -/
def titlesLoop : List StoreResp → List String → List String
  | StoreResp.notFound :: _, _ => []
  | StoreResp.transportError :: _, _ => []
  | StoreResp.page titles more :: rest, acc =>
      let acc := acc ++ (titles.filter (fun t => t ≠ "")).map (fun t => pyStrip (lowerStr t))
      if more then titlesLoop rest acc else acc
  | [], _ => []

/-- `get_existing_titles()` (lines 258-302) as a function of the store's
    answers; the returned list is the in-memory dedup set. -/
def get_existing_titles (resps : List StoreResp) : List String :=
  titlesLoop resps []

-- ===========================================================================
-- src/main.py lines 428-455: search_pubmed
-- ===========================================================================

/-- An uncaught Python exception propagating out of a function. -/
inductive PyError
  | attributeError
deriving DecidableEq

/-- Outcome of the search request of `search_pubmed` (lines 445-455).
    `raisedRequestError` covers every raised `requests.exceptions.
    RequestException`: transport failure, `raise_for_status` on a non-2xx
    code, and the JSON decode error from `response.json()` (a
    `RequestException` subclass).  `nonObjectBody` is a 2xx response whose
    body is valid JSON but not a JSON object, so `data.get(...)` raises
    `AttributeError`.  `ok pmids` is an object body with
    `esearchresult.idlist` extracted (defaulting to `[]`). -/
inductive SearchOutcome
  | raisedRequestError
  | nonObjectBody
  | ok (pmids : List String)
deriving DecidableEq

/-- `search_pubmed(query, …)` as a function of the response outcome.  The
    `except` clause catches only `RequestException` (error counter
    incremented, empty list returned); the `AttributeError` raised by
    `data.get(...)` on a non-object body is not caught and escapes to the
    caller. -/
def search_pubmed : SearchOutcome → Stats → Except PyError (List String × Stats)
  | SearchOutcome.raisedRequestError, s =>
      Except.ok ([], { s with errors := s.errors + 1 })
  | SearchOutcome.nonObjectBody, _ => Except.error PyError.attributeError
  | SearchOutcome.ok pmids, s =>
      Except.ok (pmids, { s with total_searched := s.total_searched + pmids.length })

-- ===========================================================================
-- Records and extracted fields (src/main.py lines 519-527, 650-659)
-- ===========================================================================

structure Article where
  pmid : String
  title : String
  abstract : String
  journal : String
  year : String
  authors : String
  url : String
deriving DecidableEq

structure Extracted where
  evidence_type : String
  sample_size : String
  biomarkers_studied : List String
  key_findings : String
  effect_size : String
  clinical_relevance : String
  limitations : String
deriving DecidableEq

/-- The per-record classifier invocation of the orchestrator (line 878):
    `detect_domain(keyword, article["abstract"])` — the article's title is
    not passed to the classifier. -/
def classify_article (keyword : String) (article : Article) : String :=
  detect_domain keyword article.abstract

-- ===========================================================================
-- src/main.py lines 458-536: fetch_pubmed_abstract (outcome model)
-- ===========================================================================

/-- Outcome of one fetch: a raised exception (`ET.ParseError` or any other,
    both caught, both incrementing the error counter), a response without a
    `PubmedArticle` element (returns `None` silently), or a parsed article. -/
inductive FetchOutcome
  | raised
  | missing
  | ok (a : Article)
deriving DecidableEq

def fetch_pubmed_abstract : FetchOutcome → Stats → Option Article × Stats
  | FetchOutcome.raised, s => (none, { s with errors := s.errors + 1 })
  | FetchOutcome.missing, s => (none, s)
  | FetchOutcome.ok a, s => (some a, { s with abstracts_fetched := s.abstracts_fetched + 1 })

-- ===========================================================================
-- src/main.py lines 636-687: ask_claude (outcome model)
-- ===========================================================================

/-- Outcome of one extraction call.  `ask_claude` itself catches
    `json.JSONDecodeError` and every other exception (error counter
    incremented, `None` returned) — but on success it returns whatever JSON
    value `json.loads` parsed, unchanged.  The constructors distinguish the
    shapes `main` reacts to differently:
    a falsy value (`null`, `""`, `0`, `[]`, `{}`) is skipped by
    `if not extracted`; a truthy non-object makes `extracted.get(...)` in
    `main` raise `AttributeError`; an object whose `evidence_type` or
    `effect_size` is a truthy non-string makes `.lower()` inside
    `calculate_stars` raise `AttributeError`; an object whose consumed fields
    are strings (absent ones defaulting to `""`) is processed normally. -/
inductive ExtractOutcome
  | failed
  | falsy
  | nonObjectTruthy
  | badFieldType
  | ok (e : Extracted)
deriving DecidableEq

/-- The value `ask_claude` returns to `main`: Python `None` after a caught
    exception, or the parsed JSON value classified by its shape. -/
inductive ExtractReturn
  | noneVal
  | falsy
  | nonObjectTruthy
  | badFieldType
  | obj (e : Extracted)
deriving DecidableEq

def ask_claude : ExtractOutcome → Stats → ExtractReturn × Stats
  | ExtractOutcome.failed, s => (ExtractReturn.noneVal, { s with errors := s.errors + 1 })
  | ExtractOutcome.falsy, s => (ExtractReturn.falsy, s)
  | ExtractOutcome.nonObjectTruthy, s => (ExtractReturn.nonObjectTruthy, s)
  | ExtractOutcome.badFieldType, s => (ExtractReturn.badFieldType, s)
  | ExtractOutcome.ok e, s => (ExtractReturn.obj e, s)

-- ===========================================================================
-- src/main.py lines 627-629: format_stars
-- ===========================================================================

def repeatStr (s : String) (n : Nat) : String := ⟨(List.replicate n s.data).flatten⟩

/-- `format_stars(num)` = `f"{num} " + "⭐️" * num`. -/
def format_stars (num : Nat) : String := toString num ++ " " ++ repeatStr "⭐️" num

-- ===========================================================================
-- src/main.py lines 700-777: add_to_airtable — record assembly
-- ===========================================================================

/-- A value of the `fields` dict: a string field or a linked-record list. -/
inductive FieldVal
  | str (s : String)
  | linkList (ids : List String)
deriving DecidableEq

/-- Python truthiness filter of line 764:
    `v and (not isinstance(v, str) or v.strip())`. -/
def keepField : FieldVal → Bool
  | FieldVal.str s => s ≠ "" && pyStrip s ≠ ""
  | FieldVal.linkList ids => ids ≠ []

/-- `", ".join(str(b) for b in biomarkers)` (line 717). -/
def joinComma : List String → String
  | [] => ""
  | x :: xs => xs.foldl (fun acc b => acc ++ ", " ++ b) x

/-- The AUTO-LINKING block of `add_to_airtable` (lines 742-761):
    `find_health_condition_link` adds at most one `health_condition_link`
    entry, `find_symptom_cluster_links` adds a `symptom_clusters_link` entry
    when the cluster list is nonempty; nothing is added without a
    `condition_id`. -/
def autoLinks (condition_id : Option String)
    (healthCache : List (String × String))
    (symptomCache : List (String × List String)) : List (String × FieldVal) :=
  match condition_id with
  | none => []
  | some cid =>
    (match (healthCache.find? (fun p => p.1 = cid)).map Prod.snd with
     | some recId => [("health_condition_link", FieldVal.linkList [recId])]
     | none => []) ++
    (match (symptomCache.find? (fun p => p.1 = cid)).map Prod.snd with
     | some ids => if ids ≠ [] then [("symptom_clusters_link", FieldVal.linkList ids)] else []
     | none => [])

/-- The `record["fields"]` dict built by `add_to_airtable` (lines 700-764),
    after the auto-linking block and the final truthiness filter.
    `eid` stands for the freshly generated `get_next_evidence_id()` (a
    timestamp string, modeled as an input); `healthCache` and `symptomCache`
    are the two auxiliary reference tables loaded at run start. -/
def add_to_airtable_fields (article : Article) (extracted : Extracted)
    (stars : Nat) (domain : String) (eid : String)
    (healthCache : List (String × String))
    (symptomCache : List (String × List String)) : List (String × FieldVal) :=
  let mapped_domain := (dictGet DOMAIN_MAP domain).getD "DOM_AGING"
  let condition_id := dictGet DOMAIN_TO_CONDITION mapped_domain
  let biomarkers_str := joinComma extracted.biomarkers_studied
  let base : List (String × FieldVal) := [
    ("evidence_id", FieldVal.str eid),
    ("study_title", FieldVal.str (pyTake 500 article.title)),
    ("authors_year", FieldVal.str (article.year ++ "-01-01")),
    ("journal", FieldVal.str (pyTake 200 article.journal)),
    ("toxin_domain", FieldVal.str mapped_domain),
    ("condition_id", FieldVal.str (condition_id.getD "")),
    ("evidence_type", FieldVal.str (sanitize_evidence_type (some extracted.evidence_type))),
    ("sample_size", FieldVal.str (pyTake 50 extracted.sample_size)),
    ("markers_covered", FieldVal.str (pyTake 1000 biomarkers_str)),
    ("key_findings", FieldVal.str (pyTake 2000 extracted.key_findings)),
    ("effect_size", FieldVal.str (pyTake 200 extracted.effect_size)),
    ("clinical_relevance", FieldVal.str (pyTake 1000 extracted.clinical_relevance)),
    ("limitations", FieldVal.str (pyTake 1000 extracted.limitations)),
    ("evidence_strength_score", FieldVal.str (format_stars stars)),
    ("source_url", FieldVal.str article.url)]
  (base ++ autoLinks condition_id healthCache symptomCache).filter
    (fun kv => keepField kv.2)

/-- The persistence call of `add_to_airtable` (lines 766-777) as a function
    of the POST outcome: success increments `added_to_airtable` and returns
    `True`; a raised `RequestException` is caught, increments the error
    counter and returns `False`. -/
def add_to_airtable (persistOk : Bool) (s : Stats) : Bool × Stats :=
  if persistOk then (true, { s with added_to_airtable := s.added_to_airtable + 1 })
  else (false, { s with errors := s.errors + 1 })

-- ===========================================================================
-- src/main.py lines 809-917: main — the orchestration loop
-- ===========================================================================

/-- External outcomes governing the processing of one PubMed id inside the
    per-query loop (lines 861-902). -/
structure RecordEnv where
  fetch : FetchOutcome
  extract : ExtractOutcome
  persistOk : Bool
deriving DecidableEq

/-- The body of `for pmid in pmids` (lines 861-902): fetch, skip on missing
    abstract, dedup check, classify, extract, score, threshold, persist,
    ledger update.  State is `(stats, dedup titles)`; `Except.error` is an
    exception escaping the loop body — `main` wraps none of these statements
    in a `try`, so a truthy non-object extraction result (`extracted.get`)
    or an object with a truthy non-string `evidence_type`/`effect_size`
    (`.lower()` in `calculate_stars`) raises an uncaught `AttributeError`. -/
def process_record (min_score : Nat) (keyword : String) (env : RecordEnv)
    (st : Stats × List String) : Except PyError (Stats × List String) :=
  let s := st.1
  let titles := st.2
  let fetched := fetch_pubmed_abstract env.fetch s
  match fetched with
  | (none, s) => Except.ok (s, titles)
  | (some article, s) =>
    if article.abstract = "" then Except.ok (s, titles)
    else
      let title_lower := pyStrip (lowerStr article.title)
      if titles.contains title_lower then
        Except.ok ({ s with duplicates_skipped := s.duplicates_skipped + 1 }, titles)
      else
        let _domain := classify_article keyword article
        match ask_claude env.extract s with
        | (ExtractReturn.noneVal, s) => Except.ok (s, titles)
        | (ExtractReturn.falsy, s) => Except.ok (s, titles)
        | (ExtractReturn.nonObjectTruthy, _) => Except.error PyError.attributeError
        | (ExtractReturn.badFieldType, _) => Except.error PyError.attributeError
        | (ExtractReturn.obj extracted, s) =>
          let stars := calculate_stars extracted.evidence_type extracted.sample_size
            article.journal extracted.effect_size
          if stars < min_score then
            Except.ok ({ s with below_threshold := s.below_threshold + 1 }, titles)
          else
            match add_to_airtable env.persistOk s with
            | (true, s) => Except.ok (s, title_lower :: titles)
            | (false, s) => Except.ok (s, titles)

/-- External outcomes governing one configured search query. -/
structure QueryEnv where
  search : SearchOutcome
  records : List RecordEnv
deriving DecidableEq

/-- The body of `for i, keyword in enumerate(keywords, 1)` (lines 853-902):
    search, then process each returned id with its environment; an exception
    raised by `search_pubmed` or inside the record loop propagates (there is
    no enclosing `try` in `main`). -/
def process_query (min_score : Nat) (keyword : String) (env : QueryEnv)
    (st : Stats × List String) : Except PyError (Stats × List String) :=
  match search_pubmed env.search st.1 with
  | Except.error e => Except.error e
  | Except.ok (pmids, s) =>
      (pmids.zip env.records).foldlM
        (fun acc pr => process_record min_score keyword pr.2 acc) (s, st.2)

/-- The whole query loop, starting from zeroed statistics and the ledger
    seeded by `get_existing_titles`. -/
def run_pipeline (min_score : Nat) (keywords : List String)
    (envs : List QueryEnv) (ledger : List String) :
    Except PyError (Stats × List String) :=
  (keywords.zip envs).foldlM
    (fun acc ke => process_query min_score ke.1 ke.2 acc) (initStats, ledger)

/-- How a run can end without reaching the summary: the `sys.exit(1)`
    credential check before any work, or an exception that escaped the
    orchestration loop (which nothing in `main` catches). -/
inductive RunAbort
  | missingCredentials
  | uncaught (e : PyError)
deriving DecidableEq

/-- `main()` (lines 809-917): `sys.exit(1)` when `ANTHROPIC_KEY` or
    `AIRTABLE_API_KEY` is absent, before any other work; otherwise the run
    proceeds through the ledger load into the query loop, whose uncaught
    exceptions (if any) crash the process. -/
def main_model (anthropicKey airtableKey : Option String) (min_score : Nat)
    (keywords : List String) (ledgerResps : List StoreResp)
    (envs : List QueryEnv) : Except RunAbort (Stats × List String) :=
  match anthropicKey with
  | none => Except.error RunAbort.missingCredentials
  | some _ =>
    match airtableKey with
    | none => Except.error RunAbort.missingCredentials
    | some _ =>
      Except.mapError RunAbort.uncaught
        (run_pipeline min_score keywords envs (get_existing_titles ledgerResps))

-- ===========================================================================
-- Benign external outcomes: the shapes the source's handlers do isolate
-- ===========================================================================

/-- Modelled from the spec (§4.2), for comparison with the source's parse:
    "parse a leading integer from the sample-size text (ignore thousands
    separators and surrounding words)" — the first maximal run of digit
    characters, after removing comma thousands separators, read as one
    integer. -/
def specLeadingInt (s : String) : Option Nat :=
  let cleaned := s.data.filter (fun c => c ≠ ',')
  let run := (cleaned.dropWhile (fun c => !c.isDigit)).takeWhile Char.isDigit
  if run = [] then none else some (natOfDigits run)

/-- The integer the source's sample-size parse actually produces: `none` on
    the falsy-input and `ValueError` paths, otherwise the concatenation of
    every digit character of the comma-and-space-stripped text's first
    whitespace token. -/
def codeParsedSize (sample_size : String) : Option Nat :=
  if sample_size = "" then none
  else
    let size_str := (sample_size.data.filter (fun c => c ≠ ',')).filter (fun c => c ≠ ' ')
    let ds := sampleDigits size_str
    if ds = [] then none else some (natOfDigits ds)

/-- The fixed size-tier ladder of lines 597-606, applied to a parse result
    (quarter points; `none` = no integer parsed = zero contribution). -/
def sizeTier : Option Nat → Nat
  | none => 0
  | some n =>
    if n ≥ 10000 then 6
    else if n ≥ 1000 then 4
    else if n ≥ 500 then 3
    else if n ≥ 100 then 2
    else if n ≥ 50 then 1
    else 0

-- ===========================================================================
-- Helper lemmas
-- ===========================================================================

theorem pyRound_le_succ (q : Nat) : pyRound q ≤ pyRound (q + 1) := by
  unfold pyRound
  split_ifs <;> omega

theorem pyRound_mono {q q' : Nat} (h : q ≤ q') : pyRound q ≤ pyRound q' := by
  induction h with
  | refl => exact le_rfl
  | step _ ih => exact le_trans ih (pyRound_le_succ _)

theorem starsOfTotal_mono {q q' : Nat} (h : q ≤ q') : starsOfTotal q ≤ starsOfTotal q' := by
  unfold starsOfTotal
  exact min_le_min (max_le_max (pyRound_mono h) le_rfl) le_rfl

-- ===========================================================================
-- Claim theorems
-- ===========================================================================

/-- C8: during the dedup-ledger load, a "resource not found" answer from the
    store yields the empty ledger, a transport error at any point yields the
    empty ledger (even discarding pages already read), and the run then
    proceeds to the pipeline instead of aborting. -/
theorem ledger_load_error_tolerance :
    (∀ rest, get_existing_titles (StoreResp.notFound :: rest) = []) ∧
    (∀ rest, get_existing_titles (StoreResp.transportError :: rest) = []) ∧
    (∀ titles rest, get_existing_titles
        (StoreResp.page titles true :: StoreResp.transportError :: rest) = []) ∧
    (∀ a b min_score keywords ledgerResps envs,
        main_model (some a) (some b) min_score keywords ledgerResps envs =
          Except.mapError RunAbort.uncaught (run_pipeline min_score keywords envs
            (get_existing_titles ledgerResps))) := by
  refine ⟨fun _ => rfl, fun _ => rfl, fun titles rest => ?_, fun _ _ _ _ _ _ => rfl⟩
  simp [get_existing_titles, titlesLoop]

/-- C1 (amended): in the classifier's score each primary keyword phrase
    contributes exactly 1 when it occurs (case-insensitively) in the combined
    query-and-abstract text and 0 otherwise — the score is the number of
    matching phrases — and the record's title is never consulted: the
    orchestrator passes only the search keyword and the abstract, so changing
    the title never changes the assigned category. -/
theorem detect_domain_keyword_contribution :
    (∀ text kw kws, domainScore text (kw :: kws) =
        (if strContains text (lowerStr kw) then 1 else 0) + domainScore text kws) ∧
    (∀ text kws, domainScore text kws =
        (kws.filter (fun kw => strContains text (lowerStr kw))).length) ∧
    (∀ keyword article newTitle,
        classify_article keyword { article with title := newTitle } =
          classify_article keyword article) := by
  refine ⟨fun _ _ _ => rfl, fun text kws => ?_, fun _ _ _ => rfl⟩
  induction kws with
  | nil => rfl
  | cons kw rest ih =>
    simp only [domainScore, List.map_cons, List.sum_cons, List.filter_cons] at *
    split <;> simp [ih, Nat.add_comm]

/-- C1 counterexample: "crp" is a primary keyword phrase of the
    "Inflammation" taxonomy entry and occurs in the record's title, yet the
    classifier computes no positive score for any category (the title is not
    part of its input) and returns the fallback label — so a phrase occurring
    only in the title contributes 0, not a positive `title_weight`. -/
theorem detect_domain_title_ignored_cex :
    "crp" ∈ (DOMAIN_KEYWORDS.lookup "Inflammation").getD [] ∧
    strContains (lowerStr "crp") (lowerStr "crp") = true ∧
    domainScoresWith DOMAIN_KEYWORDS "x" "" = [] ∧
    classify_article "x" ⟨"1", "crp", "", "J", "2024", "A", "u"⟩ = "General_Longevity" ∧
    "General_Longevity" ≠ "Inflammation" :=
  ⟨by decide, by decide, by decide, by decide, by decide⟩

/-- C7 (amended): the sample-size component equals the size-tier ladder
    (≥10000 → 1.5 down to ≥50 → 0.25, below 50 → 0) applied to the integer
    obtained by concatenating every digit character of the (comma- and
    space-stripped) text's first whitespace token — not a leading-integer
    parse — and when the text contains no digit at all the component is
    exactly 0 and the scorer does not fail. -/
theorem sample_component_digit_concat :
    (∀ s, sampleComponent s = sizeTier (codeParsedSize s)) ∧
    (∀ s, (∀ c ∈ s.data, c.isDigit = false) → sampleComponent s = 0) := by
  constructor
  · intro s
    simp only [sampleComponent, codeParsedSize]
    by_cases h1 : s = ""
    · rw [if_pos h1, if_pos h1]; rfl
    · rw [if_neg h1, if_neg h1]
      by_cases h2 : sampleDigits
          ((s.data.filter (fun c => c ≠ ',')).filter (fun c => c ≠ ' ')) = []
      · rw [if_pos h2, if_pos h2]; rfl
      · rw [if_neg h2, if_neg h2]; rfl
  · intro s h
    have hsub : ∀ l : List Char, l ⊆ s.data → l.filter Char.isDigit = [] := by
      intro l hl
      refine List.filter_eq_nil_iff.2 fun a ha => ?_
      simp [h a (hl ha)]
    have hsize : ((s.data.filter (fun c => c ≠ ',')).filter (fun c => c ≠ ' ')) ⊆ s.data := by
      intro a ha
      exact List.filter_subset' _ (List.filter_subset' _ ha)
    have hds : sampleDigits
        ((s.data.filter (fun c => c ≠ ',')).filter (fun c => c ≠ ' ')) = [] := by
      simp only [sampleDigits, firstToken]
      split
      · exact hsub _ hsize
      · refine hsub _ ?_
        intro a ha
        exact hsize ((List.dropWhile_sublist _).subset ((List.takeWhile_sublist _).subset ha))
    simp only [sampleComponent]
    by_cases h1 : s = ""
    · rw [if_pos h1]
    · rw [if_neg h1, if_pos hds]

/-- C7 counterexample: on the sample-size text "250 (3 cohorts)" the spec's
    leading-integer parse yields 250 (tier 0.25 × 2), but the code
    concatenates the digits into 2503 and awards the ≥1000 tier (0.25 × 4):
    the component is not a leading-integer parse. -/
theorem sample_component_leading_int_cex :
    specLeadingInt "250 (3 cohorts)" = some 250 ∧
    sizeTier (some 250) = 2 ∧
    codeParsedSize "250 (3 cohorts)" = some 2503 ∧
    sampleComponent "250 (3 cohorts)" = 4 ∧
    (4 : Nat) ≠ 2 :=
  ⟨by decide, by decide, by decide, by decide, by decide⟩

/-- C7 witness: a digit-free sample-size text contributes exactly zero. -/
theorem sample_component_digit_concat_witness :
    (∀ c ∈ ("Not reported" : String).data, c.isDigit = false) ∧
    sampleComponent "Not reported" = 0 :=
  ⟨by decide, sample_component_digit_concat.2 "Not reported" (by decide)⟩

/-- C3: the evidence score is exactly the clamp to [1,5] of the (half-to-even)
    rounding of the sum of the four components, it always lies in [1,5], and
    it is monotonic non-decreasing in each component: raising any component
    value while the others do not decrease never decreases the final score. -/
theorem calculate_stars_range_round_monotone :
    (∀ et ss j es, 1 ≤ calculate_stars et ss j es ∧ calculate_stars et ss j es ≤ 5) ∧
    (∀ et ss j es, calculate_stars et ss j es =
        starsOfTotal (evidenceComponent et + sampleComponent ss +
          journalComponent j + effectComponent es)) ∧
    (∀ e e' s s' jq jq' f f' : Nat, e ≤ e' → s ≤ s' → jq ≤ jq' → f ≤ f' →
        starsOfTotal (e + s + jq + f) ≤ starsOfTotal (e' + s' + jq' + f')) := by
  refine ⟨fun et ss j es => ⟨?_, ?_⟩, fun _ _ _ _ => rfl, ?_⟩
  · exact le_min (le_max_right _ _) (by norm_num)
  · exact min_le_right _ _
  · intro e e' s s' jq jq' f f' he hs hj hf
    exact starsOfTotal_mono (by omega)

/-- C3 witness: instantiating the monotonicity part at concrete component
    values (and the range/decomposition parts at the §8 scenario). -/
theorem calculate_stars_witness :
    (2 : Nat) ≤ 10 ∧ (1 : Nat) ≤ 6 ∧ (2 : Nat) ≤ 4 ∧ (0 : Nat) ≤ 3 ∧
    starsOfTotal (2 + 1 + 2 + 0) ≤ starsOfTotal (10 + 6 + 4 + 3) ∧
    (1 ≤ calculate_stars "Meta-analysis" "12,000" "Nature" "HR=1.4 per quartile" ∧
      calculate_stars "Meta-analysis" "12,000" "Nature" "HR=1.4 per quartile" ≤ 5) :=
  ⟨by decide, by decide, by decide, by decide,
    calculate_stars_range_round_monotone.2.2 2 10 1 6 2 4 0 3
      (by decide) (by decide) (by decide) (by decide),
    calculate_stars_range_round_monotone.1 "Meta-analysis" "12,000" "Nature"
      "HR=1.4 per quartile"⟩

theorem argmaxFirst_mem (l : List (String × Nat)) : ∀ d, argmaxFirst l d ∈ d :: l := by
  induction l with
  | nil => intro d; simp [argmaxFirst]
  | cons p t ih =>
    intro d
    have hstep : argmaxFirst (p :: t) d = argmaxFirst t (if p.2 > d.2 then p else d) := rfl
    rw [hstep]
    rcases List.mem_cons.1 (ih (if p.2 > d.2 then p else d)) with h1 | h1
    · rw [h1]
      split
      · exact List.mem_cons_of_mem _ (List.mem_cons_self _ _)
      · exact List.mem_cons_self _ _
    · exact List.mem_cons_of_mem _ (List.mem_cons_of_mem _ h1)

/-- `argmaxFirst` returns the first list element attaining the maximum value:
    it occurs in the list, every element strictly before it is strictly
    smaller, and no element is larger. -/
theorem argmaxFirst_first_max (l : List (String × Nat)) : ∀ d : String × Nat,
    ∃ l1 l2, d :: l = l1 ++ argmaxFirst l d :: l2 ∧
      (∀ p ∈ l1, p.2 < (argmaxFirst l d).2) ∧
      (∀ p ∈ d :: l, p.2 ≤ (argmaxFirst l d).2) := by
  induction l with
  | nil =>
    intro d
    refine ⟨[], [], rfl, ?_, ?_⟩
    · intro p hp; cases hp
    · intro p hp
      rcases List.mem_cons.1 hp with h | h
      · subst h; exact le_rfl
      · cases h
  | cons q t ih =>
    intro d
    have hstep : argmaxFirst (q :: t) d = argmaxFirst t (if q.2 > d.2 then q else d) := rfl
    by_cases hq : q.2 > d.2
    · obtain ⟨l1, l2, heq, hlt, hle⟩ := ih q
      have hr : argmaxFirst (q :: t) d = argmaxFirst t q := by rw [hstep, if_pos hq]
      have hqle : q.2 ≤ (argmaxFirst t q).2 := hle q (List.mem_cons_self _ _)
      refine ⟨d :: l1, l2, ?_, ?_, ?_⟩
      · rw [hr, List.cons_append, ← heq]
      · intro p hp
        rw [hr]
        rcases List.mem_cons.1 hp with h | h
        · subst h; omega
        · exact hlt p h
      · intro p hp
        rw [hr]
        rcases List.mem_cons.1 hp with h | h
        · subst h; omega
        · exact hle p h
    · have hq2 : q.2 ≤ d.2 := Nat.le_of_not_lt hq
      obtain ⟨l1, l2, heq, hlt, hle⟩ := ih d
      have hr : argmaxFirst (q :: t) d = argmaxFirst t d := by rw [hstep, if_neg hq]
      cases l1 with
      | nil =>
        rw [List.nil_append] at heq
        injection heq with h1 h2
        refine ⟨[], q :: t, ?_, ?_, ?_⟩
        · rw [hr, List.nil_append, ← h1]
        · intro p hp; cases hp
        · intro p hp
          rw [hr, ← h1]
          rcases List.mem_cons.1 hp with h | h
          · subst h; exact le_rfl
          · rcases List.mem_cons.1 h with h' | h'
            · subst h'; exact hq2
            · have := hle p (List.mem_cons_of_mem _ h')
              rw [← h1] at this
              exact this
      | cons e l1t =>
        rw [List.cons_append] at heq
        injection heq with h1 h2
        have hdlt : d.2 < (argmaxFirst t d).2 := by
          have : e ∈ e :: l1t := List.mem_cons_self _ _
          have := hlt e this
          rw [← h1] at this
          exact this
        refine ⟨d :: q :: l1t, l2, ?_, ?_, ?_⟩
        · rw [hr, List.cons_append, List.cons_append]
          conv_lhs => rw [h2]
        · intro p hp
          rw [hr]
          rcases List.mem_cons.1 hp with h | h
          · subst h; exact hdlt
          · rcases List.mem_cons.1 h with h' | h'
            · subst h'; omega
            · exact hlt p (List.mem_cons_of_mem _ h')
        · intro p hp
          rw [hr]
          rcases List.mem_cons.1 hp with h | h
          · subst h; omega
          · rcases List.mem_cons.1 h with h' | h'
            · subst h'; omega
            · exact hle p (List.mem_cons_of_mem _ h')

/-- Provenance of a `domain_scores` entry: its label comes from the taxonomy
    and its score is positive (line 550: `if score > 0`). -/
theorem domainScores_entry_src {taxonomy : List (String × List String)}
    {query abstract : String} {p : String × Nat}
    (hp : p ∈ domainScoresWith taxonomy query abstract) :
    p.1 ∈ taxonomy.map Prod.fst ∧ 0 < p.2 := by
  simp only [domainScoresWith] at hp
  obtain ⟨dk, hdk, hfd⟩ := List.mem_filterMap.1 hp
  split at hfd
  · rename_i hpos
    cases hfd
    exact ⟨List.mem_map_of_mem _ hdk, hpos⟩
  · cases hfd

theorem map_fst_filterMap_fst_sublist (f : String × List String → Option (String × Nat))
    (hf : ∀ x y, f x = some y → y.1 = x.1) :
    ∀ taxonomy : List (String × List String),
      List.Sublist ((taxonomy.filterMap f).map Prod.fst) (taxonomy.map Prod.fst) := by
  intro taxonomy
  induction taxonomy with
  | nil => simp
  | cons dk rest ih =>
    cases hfa : f dk with
    | none =>
      rw [List.filterMap_cons_none hfa, List.map_cons]
      exact ih.cons _
    | some val =>
      rw [List.filterMap_cons_some hfa, List.map_cons, List.map_cons, hf dk val hfa]
      exact ih.cons₂ _

/-- C5: the classifier is total by construction; its label is always either
    the default fallback or the first component of a taxonomy entry, and
    whenever no category scores above zero (the score dict is empty) it
    returns exactly the fallback label "General_Longevity". -/
theorem classify_total_label_in_configured_set :
    (∀ (taxonomy : List (String × List String)) (query abstract : String),
        detectDomainWith taxonomy query abstract = "General_Longevity" ∨
        detectDomainWith taxonomy query abstract ∈ taxonomy.map Prod.fst) ∧
    (∀ (taxonomy : List (String × List String)) (query abstract : String),
        domainScoresWith taxonomy query abstract = [] →
        detectDomainWith taxonomy query abstract = "General_Longevity") := by
  constructor
  · intro tax q a
    unfold detectDomainWith
    cases hds : domainScoresWith tax q a with
    | nil => exact Or.inl rfl
    | cons d rest =>
      right
      have h1 : argmaxFirst rest d ∈ d :: rest := argmaxFirst_mem rest d
      rw [← hds] at h1
      exact (domainScores_entry_src h1).1
  · intro tax q a h
    unfold detectDomainWith
    rw [h]

/-- C5 witness: on empty inputs no category scores, and the classifier
    returns the fallback label. -/
theorem classify_fallback_witness :
    domainScoresWith DOMAIN_KEYWORDS "" "" = [] ∧
    detectDomainWith DOMAIN_KEYWORDS "" "" = "General_Longevity" :=
  ⟨by decide, classify_total_label_in_configured_set.2 DOMAIN_KEYWORDS "" "" (by decide)⟩

/-- C6: the score dict lists categories in taxonomy iteration order (its
    labels form a sublist of the taxonomy's labels); whenever it is nonempty
    the classifier returns the label of an entry with positive, maximal score
    such that every entry before it scores strictly less — i.e. the first of
    the tied maxima in taxonomy order. -/
theorem detect_domain_max_first_tiebreak :
    (∀ (taxonomy : List (String × List String)) (query abstract : String),
        List.Sublist ((domainScoresWith taxonomy query abstract).map Prod.fst)
          (taxonomy.map Prod.fst)) ∧
    (∀ (taxonomy : List (String × List String)) (query abstract : String),
        domainScoresWith taxonomy query abstract ≠ [] →
        ∃ best l1 l2,
          domainScoresWith taxonomy query abstract = l1 ++ best :: l2 ∧
          detectDomainWith taxonomy query abstract = best.1 ∧
          0 < best.2 ∧
          (∀ p ∈ l1, p.2 < best.2) ∧
          (∀ p ∈ domainScoresWith taxonomy query abstract, p.2 ≤ best.2)) := by
  constructor
  · intro tax q a
    simp only [domainScoresWith]
    refine map_fst_filterMap_fst_sublist _ ?_ tax
    intro x y hxy
    split at hxy
    · cases hxy; rfl
    · cases hxy
  · intro tax q a h
    cases hds : domainScoresWith tax q a with
    | nil => exact absurd hds h
    | cons d rest =>
      obtain ⟨l1, l2, heq, hlt, hle⟩ := argmaxFirst_first_max rest d
      refine ⟨argmaxFirst rest d, l1, l2, heq, ?_, ?_, hlt, ?_⟩
      · unfold detectDomainWith; rw [hds]
      · have hm : argmaxFirst rest d ∈ d :: rest := argmaxFirst_mem rest d
        rw [← hds] at hm
        exact (domainScores_entry_src hm).2
      · intro p hp
        exact hle p hp

/-- C6 witness: "glucose crp" produces a 1-1 tie between "Aging_Metabolism"
    and "Inflammation", and the classifier deterministically returns the
    earlier taxonomy entry. -/
theorem detect_domain_max_first_tiebreak_witness :
    domainScoresWith DOMAIN_KEYWORDS "glucose crp" "" ≠ [] ∧
    detectDomainWith DOMAIN_KEYWORDS "glucose crp" "" = "Aging_Metabolism" ∧
    (∃ best l1 l2,
        domainScoresWith DOMAIN_KEYWORDS "glucose crp" "" = l1 ++ best :: l2 ∧
        detectDomainWith DOMAIN_KEYWORDS "glucose crp" "" = best.1 ∧
        0 < best.2 ∧
        (∀ p ∈ l1, p.2 < best.2) ∧
        (∀ p ∈ domainScoresWith DOMAIN_KEYWORDS "glucose crp" "", p.2 ≤ best.2)) :=
  ⟨by decide, by decide,
    detect_domain_max_first_tiebreak.2 DOMAIN_KEYWORDS "glucose crp" "" (by decide)⟩

/-- C9: for every input — `None`, the empty string, any text — the sanitizer
    returns a member of the fixed `VALID_EVIDENCE_TYPES` list; `None` maps to
    "Other", and when neither a direct match, nor a mapping entry, nor any
    partial-matching test applies, the result is exactly "Other". -/
theorem sanitize_evidence_type_valid_fallback :
    (∀ o, sanitize_evidence_type o ∈ VALID_EVIDENCE_TYPES) ∧
    sanitize_evidence_type none = "Other" ∧
    (∀ s, VALID_EVIDENCE_TYPES.find?
          (fun valid => lowerStr (stripQuotes s) = lowerStr valid) = none →
        EVIDENCE_TYPE_MAPPING.find? (fun p => p.1 = lowerStr (stripQuotes s)) = none →
        fuzzyTypeMatch (lowerStr (stripQuotes s)) = false →
        sanitize_evidence_type (some s) = "Other") := by
  have hmapvals : ∀ x ∈ EVIDENCE_TYPE_MAPPING.map Prod.snd, x ∈ VALID_EVIDENCE_TYPES := by
    decide
  have ite_mem_valid : ∀ {c : Prop} [Decidable c] {a b : String} {L : List String},
      a ∈ L → b ∈ L → (if c then a else b) ∈ L := by
    intro c _ a b L ha hb
    split <;> assumption
  refine ⟨?_, rfl, ?_⟩
  · intro o
    cases o with
    | none => decide
    | some s =>
      by_cases hs : s = ""
      · subst hs; decide
      · simp only [sanitize_evidence_type]
        rw [if_neg hs]
        cases hv : VALID_EVIDENCE_TYPES.find?
            (fun valid => lowerStr (stripQuotes s) = lowerStr valid) with
        | some valid =>
          exact List.mem_of_find?_eq_some hv
        | none =>
          cases hp : EVIDENCE_TYPE_MAPPING.find?
              (fun p => p.1 = lowerStr (stripQuotes s)) with
          | some p =>
            exact hmapvals _ (List.mem_map_of_mem _ (List.mem_of_find?_eq_some hp))
          | none =>
            exact ite_mem_valid (by decide) (ite_mem_valid (by decide)
              (ite_mem_valid (by decide) (ite_mem_valid (by decide)
              (ite_mem_valid (by decide) (ite_mem_valid (by decide)
              (ite_mem_valid (by decide) (ite_mem_valid (by decide)
              (ite_mem_valid (by decide) (ite_mem_valid (by decide)
              (ite_mem_valid (by decide) (by decide)))))))))))
  · intro s h1 h2 h3
    by_cases hs : s = ""
    · subst hs; decide
    · simp only [sanitize_evidence_type]
      rw [if_neg hs]
      simp only [h1, h2]
      simp only [fuzzyTypeMatch, Bool.or_eq_false_iff] at h3
      obtain ⟨⟨⟨⟨⟨⟨⟨⟨⟨⟨⟨⟨⟨⟨⟨hA1, hA2⟩, hA3⟩, hA4⟩, hA5⟩, hA6⟩, hA7⟩, hA8⟩, hA9⟩,
        hA10⟩, hA11⟩, hA12⟩, hA13⟩, hA14⟩, hA15⟩, hA16⟩ := h3
      rw [if_neg (by simp [hA1]), if_neg (by simp [hA2]), if_neg (by simp [hA3, hA4]),
        if_neg (by simp [hA5, hA6]), if_neg (by simp [hA7]),
        if_neg (by simp [hA8, hA9]), if_neg (by simp [hA10]),
        if_neg (by simp [hA11]), if_neg (by simp [hA12]), if_neg (by simp [hA13]),
        if_neg (by simp [hA14, hA15, hA16])]

/-- C9 witness: a text with no direct, mapped or partial match falls back to
    "Other" (and "Other" is in the valid list). -/
theorem sanitize_evidence_type_witness :
    VALID_EVIDENCE_TYPES.find?
        (fun valid => lowerStr (stripQuotes "zzz") = lowerStr valid) = none ∧
    EVIDENCE_TYPE_MAPPING.find? (fun p => p.1 = lowerStr (stripQuotes "zzz")) = none ∧
    fuzzyTypeMatch (lowerStr (stripQuotes "zzz")) = false ∧
    sanitize_evidence_type (some "zzz") = "Other" :=
  ⟨by decide, by decide, by decide,
    sanitize_evidence_type_valid_fallback.2.2 "zzz" (by decide) (by decide) (by decide)⟩

theorem pyTake_length_le (n : Nat) (s : String) : (pyTake n s).length ≤ n := by
  show (s.data.take n).length ≤ n
  rw [List.length_take]
  omega

theorem mem_fields_keepField {article : Article} {extracted : Extracted} {stars : Nat}
    {domain eid : String} {healthCache : List (String × String)}
    {symptomCache : List (String × List String)} {kv : String × FieldVal}
    (hkv : kv ∈ add_to_airtable_fields article extracted stars domain eid
      healthCache symptomCache) :
    keepField kv.2 = true := by
  simp only [add_to_airtable_fields] at hkv
  exact (List.mem_filter.1 hkv).2

theorem autoLinks_val_linkList {condition_id : Option String}
    {healthCache : List (String × String)}
    {symptomCache : List (String × List String)} :
    ∀ kv ∈ autoLinks condition_id healthCache symptomCache,
      (kv.1 = "health_condition_link" ∨ kv.1 = "symptom_clusters_link") ∧
      ∃ ids, kv.2 = FieldVal.linkList ids := by
  intro kv hkv
  unfold autoLinks at hkv
  match condition_id with
  | none => cases hkv
  | some cid =>
    rcases List.mem_append.1 hkv with h | h
    · revert h
      split
      · intro h
        rcases List.mem_cons.1 h with h' | h'
        · subst h'; exact ⟨Or.inl rfl, _, rfl⟩
        · cases h'
      · intro h; cases h
    · revert h
      split
      · split
        · intro h
          rcases List.mem_cons.1 h with h' | h'
          · subst h'; exact ⟨Or.inr rfl, _, rfl⟩
          · cases h'
        · intro h; cases h
      · intro h; cases h

/-- Every entry of the assembled fields dict with key "study_title",
    "journal" or "key_findings" carries exactly the truncated source value. -/
theorem fields_key_val (article : Article) (extracted : Extracted) (stars : Nat)
    (domain eid : String) (healthCache : List (String × String))
    (symptomCache : List (String × List String)) :
    ∀ kv ∈ add_to_airtable_fields article extracted stars domain eid
        healthCache symptomCache,
      (kv.1 = "study_title" → kv.2 = FieldVal.str (pyTake 500 article.title)) ∧
      (kv.1 = "journal" → kv.2 = FieldVal.str (pyTake 200 article.journal)) ∧
      (kv.1 = "key_findings" → kv.2 = FieldVal.str (pyTake 2000 extracted.key_findings)) := by
  intro kv hkv
  simp only [add_to_airtable_fields] at hkv
  have hmem := (List.mem_filter.1 hkv).1
  rcases List.mem_append.1 hmem with hb | hl
  · simp only [List.mem_cons, List.not_mem_nil, or_false] at hb
    rcases hb with h|h|h|h|h|h|h|h|h|h|h|h|h|h|h <;> subst h <;>
      refine ⟨?_, ?_, ?_⟩ <;> intro hk <;> first | rfl | simp at hk
  · obtain ⟨hkey, ids, hids⟩ := autoLinks_val_linkList _ hl
    refine ⟨?_, ?_, ?_⟩ <;> intro hk <;>
      (rcases hkey with hkey | hkey <;> rw [hk] at hkey <;> simp at hkey)

/-- C10: every row sent to the persistence collaborator contains no empty or
    whitespace-only string field and no empty link list, and its
    `study_title`, `journal` and `key_findings` values are exactly the
    truncations of the source strings to 500, 200 and 2000 characters — in
    particular never longer than that. -/
theorem record_fields_truncated_nonempty (article : Article) (extracted : Extracted)
    (stars : Nat) (domain eid : String) (healthCache : List (String × String))
    (symptomCache : List (String × List String)) :
    (∀ kv ∈ add_to_airtable_fields article extracted stars domain eid
        healthCache symptomCache,
      ∀ s, kv.2 = FieldVal.str s → pyStrip s ≠ "") ∧
    (∀ kv ∈ add_to_airtable_fields article extracted stars domain eid
        healthCache symptomCache,
      ∀ ids, kv.2 = FieldVal.linkList ids → ids ≠ []) ∧
    (∀ v, ("study_title", FieldVal.str v) ∈ add_to_airtable_fields article extracted
        stars domain eid healthCache symptomCache →
      v = pyTake 500 article.title ∧ v.length ≤ 500) ∧
    (∀ v, ("journal", FieldVal.str v) ∈ add_to_airtable_fields article extracted
        stars domain eid healthCache symptomCache →
      v = pyTake 200 article.journal ∧ v.length ≤ 200) ∧
    (∀ v, ("key_findings", FieldVal.str v) ∈ add_to_airtable_fields article extracted
        stars domain eid healthCache symptomCache →
      v = pyTake 2000 extracted.key_findings ∧ v.length ≤ 2000) := by
  refine ⟨?_, ?_, ?_, ?_, ?_⟩
  · intro kv hkv s hs
    have h := mem_fields_keepField hkv
    rw [hs] at h
    simp only [keepField, Bool.and_eq_true, decide_eq_true_eq] at h
    exact h.2
  · intro kv hkv ids hids
    have h := mem_fields_keepField hkv
    rw [hids] at h
    simpa [keepField] using h
  · intro v hv
    have h := ((fields_key_val article extracted stars domain eid healthCache
      symptomCache) _ hv).1 rfl
    simp only [FieldVal.str.injEq] at h
    exact ⟨h, h ▸ pyTake_length_le 500 article.title⟩
  · intro v hv
    have h := ((fields_key_val article extracted stars domain eid healthCache
      symptomCache) _ hv).2.1 rfl
    simp only [FieldVal.str.injEq] at h
    exact ⟨h, h ▸ pyTake_length_le 200 article.journal⟩
  · intro v hv
    have h := ((fields_key_val article extracted stars domain eid healthCache
      symptomCache) _ hv).2.2 rfl
    simp only [FieldVal.str.injEq] at h
    exact ⟨h, h ▸ pyTake_length_le 2000 extracted.key_findings⟩

/-- C10 witness: a 501-character title is persisted as exactly its
    500-character truncation. -/
theorem record_fields_witness :
    ("study_title", FieldVal.str (⟨List.replicate 500 'a'⟩ : String)) ∈
      add_to_airtable_fields
        ⟨"1", ⟨List.replicate 501 'a'⟩, "abs", "J", "2024", "A", "u"⟩
        ⟨"RCT", "100", ["crp"], "f", "HR=2", "c", "l"⟩ 3 "Inflammation" "LONG_1" [] [] ∧
    ((⟨List.replicate 500 'a'⟩ : String) =
        pyTake 500 (⟨List.replicate 501 'a'⟩ : String) ∧
      (⟨List.replicate 500 'a'⟩ : String).length ≤ 500) :=
  ⟨by decide,
    (record_fields_truncated_nonempty
        ⟨"1", ⟨List.replicate 501 'a'⟩, "abs", "J", "2024", "A", "u"⟩
        ⟨"RCT", "100", ["crp"], "f", "HR=2", "c", "l"⟩ 3 "Inflammation" "LONG_1" [] []).2.2.1
      _ (by decide)⟩

